import Mathlib

/-!
Shallow embedding of the dual-backend video-generation client
(`src/services/kling.py` and `src/services/gemini.py`).

Network interaction is modelled by an explicit environment: each HTTP
request or SDK call the code makes is a lookup in the environment, which
returns either a parsed response or an exception message (Python
exceptions become `Except.error`).  Each `generate_video` returns the
facade result triple together with a trace of the network calls issued.
-/

/-- Byte strings, modelled as lists of naturals (each below 256 in practice). -/
abbrev Bytes := List Nat

/-- The facade result triple `(success, message, video_bytes)`. -/
structure GenResult where
  success : Bool
  message : String
  video : Option Bytes
deriving DecidableEq

/-- Python truthiness of an optional string: `None` and the empty string are falsy. -/
def falsyOptStr : Option String → Bool
  | none => true
  | some s => s = ""

/-- Python truthiness of an optional list: `None` and the empty list are falsy. -/
def falsyOptList {α : Type} : Option (List α) → Bool
  | none => true
  | some l => l.isEmpty

/-- Python substring test `needle in hay`. -/
def strContains (hay needle : String) : Bool :=
  decide (needle.toList <:+: hay.toList)

/-- Python `str.strip()`: drop leading and trailing whitespace characters. -/
def pyStrip (s : String) : String :=
  String.mk (((s.toList.dropWhile Char.isWhitespace).reverse.dropWhile
    Char.isWhitespace).reverse)

/-- Python `str.lower()` (ASCII case folding, which covers the characters the
code inspects). -/
def pyLower (s : String) : String :=
  String.mk (s.toList.map Char.toLower)

/-- The base64 alphabet used by `base64.b64encode`. -/
def base64Alphabet : List Char :=
  "ABCDEFGHIJKLMNOPQRSTUVWXYZabcdefghijklmnopqrstuvwxyz0123456789+/".toList

/-- The base64 digit for a 6-bit value. -/
def base64Digit (n : Nat) : Char := base64Alphabet.getD n 'A'

/-- Standard base64 encoding with `=` padding (`base64.b64encode(...).decode("utf-8")`). -/
def base64Encode : Bytes → String
  | [] => ""
  | [a] =>
      String.mk [base64Digit (a / 4 % 64), base64Digit (a % 4 * 16), '=', '=']
  | [a, b] =>
      String.mk [base64Digit (a / 4 % 64), base64Digit (a % 4 * 16 + b / 16 % 16),
        base64Digit (b % 16 * 4), '=']
  | a :: b :: c :: rest =>
      String.mk [base64Digit (a / 4 % 64), base64Digit (a % 4 * 16 + b / 16 % 16),
        base64Digit (b % 16 * 4 + c / 64 % 4), base64Digit (c % 64)] ++ base64Encode rest

/-! ## Provider A: KlingService (`src/services/kling.py`) -/

/-- `KlingService.ALLOWED_DURATIONS = [5, 10]`. -/
def KlingService.ALLOWED_DURATIONS : List Int := [5, 10]

/-- The enhanced prompt Kling builds from `mode_type` and the stripped user prompt
(`src/services/kling.py` lines 70-87). -/
def klingPromptEnhanced (mode_type user_prompt : String) : String :=
  if mode_type = "dance" then
    "Follow USER_PROMPT as the highest-priority instruction.\n" ++
    "Preserve the dog's identity and the original background.\n" ++
    "Make the dog move naturally and energetically according to USER_PROMPT.\n" ++
    "No subtitles, no extra text overlays.\n\n" ++
    "USER_PROMPT:\n" ++ user_prompt
  else
    "The dog in the photo opens its mouth and speaks the following dialogue " ++
    "with accurate lip-sync mouth movements.\n" ++
    "Voice: a cute 3-year-old Korean girl, cheerful and adorable tone.\n" ++
    "The dog's mouth moves naturally matching each syllable of the dialogue.\n" ++
    "Preserve the dog's identity and the original background.\n" ++
    "No subtitles, no extra text overlays.\n\n" ++
    "Dialogue:\n" ++ user_prompt

/-- Parsed JSON body of the Kling submission response:
`code`, `message`, and `data.task_id` (absent keys are `none`). -/
structure KlingSubmitJson where
  code : Option Int
  message : Option String
  task_id : Option String

/-- A Kling submission HTTP response: status code, raw text, and the JSON body
(`Except.error` models `response.json()` raising). -/
structure KlingSubmitResp where
  status_code : Nat
  text : String
  json : Except String KlingSubmitJson

/-- One entry of `data.task_result.videos`: its `url` field. -/
structure KlingVideoEntry where
  url : Option String

/-- Parsed JSON body of a Kling poll response: `data.task_status` (default `""`),
`data.task_status_msg` (absent is `none`), and `data.task_result.videos` (default `[]`). -/
structure KlingPollJson where
  task_status : String
  task_status_msg : Option String
  videos : List KlingVideoEntry

/-- A Kling poll HTTP response. -/
structure KlingPollResp where
  status_code : Nat
  json : Except String KlingPollJson

/-- A video-download HTTP response: status code and body bytes. -/
structure KlingDlResp where
  status_code : Nat
  content : Bytes

/-- The environment a Kling run interacts with: the submission response, the
response to the i-th poll request, and the response to the i-th download request.
`Except.error msg` models the `requests` call raising an exception. -/
structure KlingEnv where
  submit : Except String KlingSubmitResp
  poll : Nat → Except String KlingPollResp
  download : Nat → Except String KlingDlResp

/-- The arguments of `KlingService.generate_video`, with its Python defaults.
The field `aspect` models the `aspect_ratio` parameter. -/
structure KlingArgs where
  image_bytes : Bytes
  prompt : String
  model : String := "kling-v2-6"
  duration : Int := 5
  aspect : String := "16:9"
  resolution : String := "720p"
  mode_type : String := "speech"

/-- The JSON request body POSTed to `/videos/image2video`
(`src/services/kling.py` lines 97-105); the field `aspect` models the
`aspect_ratio` key. -/
structure KlingSubmitRec where
  model_name : String
  image : String
  prompt : String
  duration : String
  aspect : String
  mode : String
  enable_audio : Bool
deriving DecidableEq

/-- Trace of network calls issued by one Kling run: the submission request bodies
(at most one), the number of poll GETs, and the number of download GETs. -/
structure KlingTrace where
  submits : List KlingSubmitRec
  polls : Nat
  downloads : Nat
deriving DecidableEq

/-- Outcome of the Kling poll loop (`src/services/kling.py` lines 128-159). -/
inductive KlingPollOutcome where
  | exn (e : String)
  | failed (r : GenResult)
  | timeout
  | succeeded (pd : KlingPollJson)

/-- The Kling poll loop: `count` polls already made, `fuel` polls still allowed
(started at `max_polls = 60`).  Returns the outcome and the total number of poll
requests issued.  A non-200 response is skipped; `succeed` breaks with the last
parsed body; `failed` returns the provider message; exhausting the budget is a
timeout (the Python `while ... else`). -/
def klingPollLoop (env : KlingEnv) : Nat → Nat → KlingPollOutcome × Nat
  | count, 0 => (.timeout, count)
  | count, fuel + 1 =>
      match env.poll count with
      | .error e => (.exn e, count + 1)
      | .ok r =>
          if r.status_code ≠ 200 then klingPollLoop env (count + 1) fuel
          else
            match r.json with
            | .error e => (.exn e, count + 1)
            | .ok j =>
                if j.task_status = "succeed" then (.succeeded j, count + 1)
                else if j.task_status = "failed" then
                  (.failed ⟨false, "영상 생성 실패: " ++ j.task_status_msg.getD "unknown error",
                    none⟩, count + 1)
                else klingPollLoop env (count + 1) fuel

/-- The Kling download retry loop (`src/services/kling.py` lines 172-182):
up to 3 GETs; a 200 response longer than 10240 bytes succeeds; otherwise the
last status code is reported.  `i` is the number of downloads already made,
`last` the status code of the previous attempt. -/
def klingDlLoop (env : KlingEnv) : Nat → Nat → Option Nat → Except String GenResult × Nat
  | i, 0, last =>
      (.ok ⟨false, "비디오 다운로드 실패 (" ++ toString (last.getD 0) ++ ")", none⟩, i)
  | i, fuel + 1, _ =>
      match env.download i with
      | .error e => (.error e, i + 1)
      | .ok r =>
          if r.status_code = 200 ∧ 10240 < r.content.length then
            (.ok ⟨true, "성공", some r.content⟩, i + 1)
          else klingDlLoop env (i + 1) fuel (some r.status_code)

/-- The body of `KlingService.generate_video` inside its `try`:
`Except.error` is an exception reaching the outer handler. -/
def klingBody (a : KlingArgs) (env : KlingEnv) : Except String GenResult × KlingTrace :=
  let user_prompt := pyStrip a.prompt
  if user_prompt = "" then
    (.ok ⟨false, "프롬프트가 비어 있습니다.", none⟩, ⟨[], 0, 0⟩)
  else
    let prompt_enhanced := klingPromptEnhanced a.mode_type user_prompt
    let duration :=
      if a.duration ∈ KlingService.ALLOWED_DURATIONS then a.duration
      else KlingService.ALLOWED_DURATIONS.getD 0 0
    let image_b64 := base64Encode a.image_bytes
    let body : KlingSubmitRec :=
      ⟨a.model, image_b64, prompt_enhanced, toString duration, a.aspect, "pro", true⟩
    let t0 : KlingTrace := ⟨[body], 0, 0⟩
    match env.submit with
    | .error e => (.error e, t0)
    | .ok resp =>
        if resp.status_code ≠ 200 then
          (.ok ⟨false, "API request failed (" ++ toString resp.status_code ++ "): " ++
            resp.text, none⟩, t0)
        else
          match resp.json with
          | .error e => (.error e, t0)
          | .ok j =>
              if j.code ≠ some 0 then
                (.ok ⟨false, "API error: " ++ j.message.getD "unknown error", none⟩, t0)
              else if falsyOptStr j.task_id then
                (.ok ⟨false, "Task ID missing", none⟩, t0)
              else
                match klingPollLoop env 0 60 with
                | (.exn e, n) => (.error e, { t0 with polls := n })
                | (.failed r, n) => (.ok r, { t0 with polls := n })
                | (.timeout, n) =>
                    (.ok ⟨false, "영상 생성 시간 초과 (10분)", none⟩, { t0 with polls := n })
                | (.succeeded pd, n) =>
                    if pd.videos.isEmpty then
                      (.ok ⟨false, "생성된 영상을 찾을 수 없습니다", none⟩, { t0 with polls := n })
                    else
                      let video_url := (pd.videos.headD ⟨none⟩).url
                      if falsyOptStr video_url then
                        (.ok ⟨false, "영상 URL을 찾을 수 없습니다", none⟩, { t0 with polls := n })
                      else
                        let dl := klingDlLoop env 0 3 none
                        (dl.1, { t0 with polls := n, downloads := dl.2 })

/-- `KlingService.generate_video`: the `try` body with the blanket
`except Exception` handler turning any exception into the failure triple. -/
def KlingService.generate_video (a : KlingArgs) (env : KlingEnv) : GenResult × KlingTrace :=
  match klingBody a env with
  | (.ok r, t) => (r, t)
  | (.error e, t) => (⟨false, "오류 발생: " ++ e, none⟩, t)

/-! ## Provider B: GeminiService (`src/services/gemini.py`) -/

/-- A Python exception as `GeminiService` observes it: its string form, the
optional `response.text` attribute, and the optional `body` attribute. -/
structure PyExn where
  msg : String
  response_text : Option String
  body : Option String
deriving DecidableEq

/-- The keys of `GeminiService.MODELS`. -/
def GeminiService.MODELS : List String :=
  ["veo-3.1-generate-preview", "veo-3.1-fast-generate-preview"]

/-- `GeminiService.SUPPORTED_IMAGE_TYPES`. -/
def GeminiService.SUPPORTED_IMAGE_TYPES : List String :=
  ["image/jpeg", "image/png", "image/webp"]

/-- `GeminiService.MAX_FILE_SIZE = 10 * 1024 * 1024`. -/
def GeminiService.MAX_FILE_SIZE : Nat := 10 * 1024 * 1024

/-- `GeminiService.validate_image` (`src/services/gemini.py` lines 60-67); the
numeric size detail interpolated into the first message (a float format) is elided. -/
def GeminiService.validate_image (image_data : Bytes) (image_type : String) : Bool × String :=
  if GeminiService.MAX_FILE_SIZE < image_data.length then
    (false, "File size exceeds 10MB")
  else if image_type ∉ GeminiService.SUPPORTED_IMAGE_TYPES then
    (false, "Unsupported file type: " ++ image_type)
  else if image_data.length < 100 then
    (false, "Invalid image file")
  else (true, "")

/-- `GeminiService._guess_mime_type`: PNG and WEBP by file signature; anything
else is reported as JPEG. -/
def GeminiService.guess_mime_type (image_bytes : Bytes) : String :=
  if [0x89, 0x50, 0x4E, 0x47, 0x0D, 0x0A, 0x1A, 0x0A] <+: image_bytes then "image/png"
  else if decide ([0x52, 0x49, 0x46, 0x46] <+: image_bytes) &&
      decide ([0x57, 0x45, 0x42, 0x50] <:+: image_bytes.take 16) then "image/webp"
  else "image/jpeg"

/-- `GeminiService._is_bad_request`: the lowered message contains
`"bad request"` or `"400"`. -/
def GeminiService.is_bad_request (err : PyExn) : Bool :=
  let msg := pyLower err.msg
  strContains msg "bad request" || strContains msg "400"

/-- `GeminiService._extract_error_detail`: the error string, then any nonempty
`response.text`, then any nonempty `body`, joined by `" | detail: "`. -/
def GeminiService.extract_error_detail (err : PyExn) : String :=
  let details := [err.msg] ++
    (match err.response_text with
     | some t => if t ≠ "" then [t] else []
     | none => []) ++
    (match err.body with
     | some b => if b ≠ "" then [b] else []
     | none => [])
  String.intercalate " | detail: " (details.filter (fun d => d ≠ ""))

/-- A `types.GenerateVideosConfig`, keeping only the keys the code may set;
the field `aspect` models the `aspect_ratio` key. -/
structure GenerateVideosConfig where
  aspect : Option String
  duration_seconds : Option Int
  resolution : Option String
deriving DecidableEq

/-- `GeminiService._build_config` (`src/services/gemini.py` lines 95-113).
The Python truthiness test `duration and ...` is the conjunct `d ≠ 0`. -/
def GeminiService.build_config (duration : Option Int) (aspect resolution : Option String)
    (minimal : Bool) : GenerateVideosConfig :=
  let ar : Option String :=
    match aspect with
    | some s => if s = "16:9" ∨ s = "9:16" ∨ s = "1:1" then some s else none
    | none => none
  if minimal then ⟨ar, none, none⟩
  else
    let d : Option Int :=
      match duration with
      | some d => if d ≠ 0 ∧ 1 ≤ d ∧ d ≤ 8 then some d else none
      | none => none
    let r : Option String :=
      match resolution with
      | some s => if s = "720p" ∨ s = "1080p" then some s else none
      | none => none
    ⟨ar, d, r⟩

/-- The `response` attribute of a finished Veo operation:
its `generated_videos` list (references to downloadable videos). -/
structure VeoResponse where
  generated_videos : Option (List String)

/-- A Veo operation handle as the code reads it: `done`, the `error`
attribute (`none` when absent), and the `response` attribute. -/
structure VeoOperation where
  done : Bool
  err : Option String
  response : Option VeoResponse

/-- An exception escaping the Gemini `try` body: the internally raised
`TimeoutError` or a general exception. -/
inductive GemErr where
  | timeout
  | exn (e : PyExn)

/-- The environment a Gemini run interacts with: the result of the idx-th
`generate_videos` submission attempt, the result of the k-th
`operations.get` refresh, and the result of `files.download`. -/
structure GemEnv where
  submit : Nat → Except PyExn VeoOperation
  refresh : Nat → Except PyExn VeoOperation
  download : Except PyExn Bytes

/-- The arguments of `GeminiService.generate_video`, with its Python defaults.
The field `aspect` models the `aspect_ratio` parameter. -/
structure GemArgs where
  image_bytes : Bytes
  prompt : String
  model : String := "veo-3.1-fast-generate-preview"
  duration : Int := 4
  aspect : String := "16:9"
  resolution : String := "720p"
  mode_type : String := "speech"

/-- One `generate_videos` call as issued: model id, enhanced prompt, image
MIME type and the configuration object. -/
structure GemSubmitRec where
  model : String
  prompt : String
  mime : String
  config : GenerateVideosConfig
deriving DecidableEq

/-- Trace of SDK calls issued by one Gemini run. -/
structure GemTrace where
  submits : List GemSubmitRec
  refreshes : Nat
  downloads : Nat
deriving DecidableEq

/-- The enhanced prompt Gemini builds from `mode_type` and the effective user
prompt (`src/services/gemini.py` lines 161-178). -/
def geminiPromptEnhanced (mode_type user_prompt : String) : String :=
  if mode_type = "dance" then
    "The dog in the photo stands up on two legs and dances energetically.\n" ++
    "Preserve the dog's exact appearance and the original background.\n" ++
    "The dog moves naturally and rhythmically to the music.\n" ++
    "No subtitles, no text overlays.\n\n" ++
    "Dance style: " ++ user_prompt
  else
    "The dog in the photo opens its mouth and speaks the following dialogue " ++
    "with accurate lip-sync mouth movements.\n" ++
    "Voice: a cute 3-year-old Korean girl, cheerful and adorable tone.\n" ++
    "The dog's mouth moves naturally matching each syllable of the dialogue.\n" ++
    "Preserve the dog's exact appearance and the original background.\n" ++
    "No subtitles, no text overlays.\n\n" ++
    "Dialogue: " ++ user_prompt

/-- The user prompt after stripping and the dance-mode default substitution
(`src/services/gemini.py` lines 155-159). -/
def geminiEffectivePrompt (mode_type p : String) : String :=
  let t := pyStrip p
  if t = "" ∧ mode_type = "dance" then "happy dance" else t

/-- Outcome of the submission attempt loop
(`src/services/gemini.py` lines 194-210). -/
inductive GemAttemptOutcome where
  | raised (e : PyExn)
  | exhausted (last : Option PyExn)
  | ok (op : VeoOperation)

/-- The submission attempt loop: for each `(model, config)` attempt, a success
breaks out with the operation; a bad-request-class exception is remembered and
the next attempt is tried; any other exception is re-raised.  Also returns the
`generate_videos` calls actually issued. -/
def geminiAttempts (env : GemEnv) (prompt mime : String) :
    List (String × GenerateVideosConfig) → Nat → Option PyExn →
    GemAttemptOutcome × List GemSubmitRec
  | [], _, last => (.exhausted last, [])
  | (m, cfg) :: rest, idx, _ =>
      match env.submit idx with
      | .ok op => (.ok op, [⟨m, prompt, mime, cfg⟩])
      | .error e =>
          if GeminiService.is_bad_request e then
            let next := geminiAttempts env prompt mime rest (idx + 1) (some e)
            (next.1, ⟨m, prompt, mime, cfg⟩ :: next.2)
          else (.raised e, [⟨m, prompt, mime, cfg⟩])

/-- `GeminiService._poll_operation` with time advancing 10 seconds per sleep
(network latency idealised to zero): at iteration `k` the elapsed time is
`10 * k`, and `elapsed > GENERATION_TIMEOUT = 300` raises `TimeoutError`, so at
most 31 refreshes happen and `fuel = 32` is never exhausted.  Returns the
finished operation (or the escaping exception) and the number of
`operations.get` calls. -/
def GeminiService.poll_operation (env : GemEnv) :
    VeoOperation → Nat → Nat → Except GemErr VeoOperation × Nat
  | _, k, 0 => (.error .timeout, k)
  | op, k, fuel + 1 =>
      if op.done then (.ok op, k)
      else if 300 < 10 * k then (.error .timeout, k)
      else
        match env.refresh k with
        | .error e => (.error (.exn e), k + 1)
        | .ok op2 => GeminiService.poll_operation env op2 (k + 1) fuel

/-- The body of `GeminiService.generate_video` inside its `try`. -/
def geminiBody (a : GemArgs) (env : GemEnv) : Except GemErr GenResult × GemTrace :=
  let mime := GeminiService.guess_mime_type a.image_bytes
  match GeminiService.validate_image a.image_bytes mime with
  | (false, vmsg) => (.ok ⟨false, "Image validation failed: " ++ vmsg, none⟩, ⟨[], 0, 0⟩)
  | (true, _) =>
    let user_prompt := pyStrip a.prompt
    if user_prompt = "" ∧ a.mode_type = "speech" then
      (.ok ⟨false, "Please enter dialogue text.", none⟩, ⟨[], 0, 0⟩)
    else
      let user_prompt := if user_prompt = "" ∧ a.mode_type = "dance" then "happy dance"
        else user_prompt
      let prompt_enhanced := geminiPromptEnhanced a.mode_type user_prompt
      let selected_model := if a.model ∈ GeminiService.MODELS then a.model
        else "veo-3.1-fast-generate-preview"
      let fallback_model := if selected_model = "veo-3.1-fast-generate-preview" then
        "veo-3.1-generate-preview" else "veo-3.1-fast-generate-preview"
      let attempts : List (String × GenerateVideosConfig) :=
        [(selected_model,
           GeminiService.build_config (some a.duration) (some a.aspect) (some a.resolution) false),
         (selected_model, GeminiService.build_config none (some a.aspect) none true),
         (fallback_model, GeminiService.build_config none (some a.aspect) none true)]
      match geminiAttempts env prompt_enhanced mime attempts 0 none with
      | (.raised e, recs) => (.error (.exn e), ⟨recs, 0, 0⟩)
      | (.exhausted last, recs) =>
          let detail := GeminiService.extract_error_detail
            (last.getD ⟨"Bad Request", none, none⟩)
          (.ok ⟨false, "Video generation request failed: " ++ detail, none⟩, ⟨recs, 0, 0⟩)
      | (.ok op, recs) =>
          match GeminiService.poll_operation env op 0 32 with
          | (.error e, k) => (.error e, ⟨recs, k, 0⟩)
          | (.ok opf, k) =>
              if ¬ falsyOptStr opf.err then
                (.ok ⟨false, "Generation operation failed: " ++ (opf.err.getD ""), none⟩,
                  ⟨recs, k, 0⟩)
              else
                match opf.response with
                | none =>
                    (.ok ⟨false, "Generation finished but no video was returned.", none⟩,
                      ⟨recs, k, 0⟩)
                | some resp =>
                    if falsyOptList resp.generated_videos then
                      (.ok ⟨false, "Generation finished but no video was returned.", none⟩,
                        ⟨recs, k, 0⟩)
                    else
                      match env.download with
                      | .error e => (.error (.exn e), ⟨recs, k, 1⟩)
                      | .ok video_bytes =>
                          if video_bytes.isEmpty then
                            (.ok ⟨false, "Generated video file is empty.", none⟩, ⟨recs, k, 1⟩)
                          else
                            (.ok ⟨true, "Video generated successfully", some video_bytes⟩,
                              ⟨recs, k, 1⟩)

/-- `GeminiService.generate_video`: the `try` body with the `except TimeoutError`
and blanket `except Exception` handlers. -/
def GeminiService.generate_video (a : GemArgs) (env : GemEnv) : GenResult × GemTrace :=
  match geminiBody a env with
  | (.ok r, t) => (r, t)
  | (.error .timeout, t) =>
      (⟨false, "Video generation timed out. Please try again.", none⟩, t)
  | (.error (.exn e), t) =>
      (⟨false, "Error during video generation: " ++ GeminiService.extract_error_detail e,
        none⟩, t)

/-! ## Spec-side readings used by refinement comparisons -/

/-- Spec reading for the duration claim: the nearest member of the fixed
allowed set {5, 10} (ties broken towards 5). -/
def nearestAllowedDuration (d : Int) : Int :=
  if (d - 5).natAbs ≤ (d - 10).natAbs then 5 else 10

/-- Spec reading for the image-format claim: the file-signature bytes identify
a recognized image format (JPEG SOI marker, PNG signature, or RIFF/WEBP). -/
def sigRecognizedSpec (b : Bytes) : Bool :=
  decide ([0x89, 0x50, 0x4E, 0x47, 0x0D, 0x0A, 0x1A, 0x0A] <+: b) ||
  (decide ([0x52, 0x49, 0x46, 0x46] <+: b) &&
    decide ([0x57, 0x45, 0x42, 0x50] <:+: b.take 16)) ||
  decide ([0xFF, 0xD8, 0xFF] <+: b)

/-- A poll response is non-terminal when the request does not raise and either
the transport status is not 200 (the loop skips it) or the parsed body carries
a task status that is neither `succeed` nor `failed`. -/
def klingPollNonTerminal : Except String KlingPollResp → Bool
  | .error _ => false
  | .ok r =>
      decide (r.status_code ≠ 200) ||
      (match r.json with
       | .error _ => false
       | .ok j => decide (j.task_status ≠ "succeed") && decide (j.task_status ≠ "failed"))

/-! ## Concrete fixtures for witnesses and counterexamples -/

/-- An environment in which every network call raises. -/
def envKlingDown : KlingEnv :=
  ⟨.error "net down", fun _ => .error "net down", fun _ => .error "net down"⟩

/-- An environment whose submission succeeds and whose polls forever report
`processing`. -/
def envKlingProcessing : KlingEnv :=
  ⟨.ok ⟨200, "", .ok ⟨some 0, none, some "task-1"⟩⟩,
   fun _ => .ok ⟨200, .ok ⟨"processing", none, []⟩⟩,
   fun _ => .error "net down"⟩

/-- An environment whose first poll reports `succeed` with a video URL and
whose download returns 200 with a 10241-byte body. -/
def envKlingQuick : KlingEnv :=
  ⟨.ok ⟨200, "", .ok ⟨some 0, none, some "task-1"⟩⟩,
   fun _ => .ok ⟨200, .ok ⟨"succeed", none, [⟨some "https://v.example/video.mp4"⟩]⟩⟩,
   fun _ => .ok ⟨200, List.replicate 10241 7⟩⟩

/-- A finished Veo operation holding one generated video. -/
def opDoneFixture : VeoOperation := ⟨true, none, some ⟨some ["vid-ref"]⟩⟩

/-- A bad-request-class exception. -/
def badReqFixture : PyExn := ⟨"400 Bad Request", none, none⟩

/-- An exception that is not bad-request-class. -/
def serverErrFixture : PyExn := ⟨"internal server error", some "boom", none⟩

/-- An environment whose first submission attempt immediately returns a
finished operation and whose download yields three bytes. -/
def envGemOkNow : GemEnv := ⟨fun _ => .ok opDoneFixture, fun _ => .error badReqFixture, .ok [1, 2, 3]⟩

/-- An environment raising a bad-request error on the first two submission
attempts and succeeding on the third. -/
def envGemThird : GemEnv :=
  ⟨fun idx => if idx < 2 then .error badReqFixture else .ok opDoneFixture,
   fun _ => .error badReqFixture, .ok [9]⟩

/-- An environment raising a bad-request error on every call. -/
def envGemBadAll : GemEnv := ⟨fun _ => .error badReqFixture, fun _ => .error badReqFixture, .error badReqFixture⟩

/-- An environment raising a non-bad-request error on every submission. -/
def envGemAbort : GemEnv := ⟨fun _ => .error serverErrFixture, fun _ => .error badReqFixture, .ok [9]⟩

/-- 150 zero bytes: a payload within the size bounds whose signature matches
none of JPEG, PNG or WEBP. -/
def img150 : Bytes := List.replicate 150 0

/-- The model id Gemini resolves from the requested one
(`src/services/gemini.py` line 183). -/
def geminiSelectedModel (g : GemArgs) : String :=
  if g.model ∈ GeminiService.MODELS then g.model else "veo-3.1-fast-generate-preview"

/-- The secondary fallback model id (`src/services/gemini.py` lines 184-186). -/
def geminiFallbackModel (g : GemArgs) : String :=
  if geminiSelectedModel g = "veo-3.1-fast-generate-preview" then
    "veo-3.1-generate-preview" else "veo-3.1-fast-generate-preview"

/-- The three submission attempts `(model, config)` Gemini builds, in order of
decreasing configuration richness (`src/services/gemini.py` lines 188-192). -/
def geminiAttemptList (g : GemArgs) : List (String × GenerateVideosConfig) :=
  [(geminiSelectedModel g,
     GeminiService.build_config (some g.duration) (some g.aspect) (some g.resolution) false),
   (geminiSelectedModel g, GeminiService.build_config none (some g.aspect) none true),
   (geminiFallbackModel g, GeminiService.build_config none (some g.aspect) none true)]

/-- The request body `KlingService.generate_video` builds from its arguments
(after stripping the prompt and clamping the duration). -/
def klingRequestBody (a : KlingArgs) : KlingSubmitRec :=
  ⟨a.model, base64Encode a.image_bytes, klingPromptEnhanced a.mode_type (pyStrip a.prompt),
   toString (if a.duration ∈ KlingService.ALLOWED_DURATIONS then a.duration
     else KlingService.ALLOWED_DURATIONS.getD 0 0),
   a.aspect, "pro", true⟩

/-! ## Theorems -/

theorem kling_empty_prompt (a : KlingArgs) (env : KlingEnv) (h : pyStrip a.prompt = "") :
    KlingService.generate_video a env =
      (⟨false, "프롬프트가 비어 있습니다.", none⟩, ⟨[], 0, 0⟩) := by
  simp [KlingService.generate_video, klingBody, h]

theorem kling_trace_eq (a : KlingArgs) (env : KlingEnv) :
    (KlingService.generate_video a env).2 = (klingBody a env).2 := by
  simp only [KlingService.generate_video]
  rcases klingBody a env with ⟨rb, tb⟩
  cases rb <;> rfl

theorem gemini_trace_eq (g : GemArgs) (genv : GemEnv) :
    (GeminiService.generate_video g genv).2 = (geminiBody g genv).2 := by
  simp only [GeminiService.generate_video]
  rcases geminiBody g genv with ⟨rb, tb⟩
  cases rb with
  | ok r => rfl
  | error e => cases e <;> rfl

theorem klingBody_submits (a : KlingArgs) (env : KlingEnv) :
    (klingBody a env).2.submits = [] ∨
      (klingBody a env).2.submits = [klingRequestBody a] := by
  simp only [klingBody, klingRequestBody]
  repeat' split
  all_goals simp

theorem geminiAttempts_prompt (env : GemEnv) (prompt mime : String) :
    ∀ attempts idx last r, r ∈ (geminiAttempts env prompt mime attempts idx last).2 →
      r.prompt = prompt := by
  intro attempts
  induction attempts with
  | nil =>
      intro idx last r hr
      simp [geminiAttempts] at hr
  | cons hd tl ih =>
      intro idx last r hr
      obtain ⟨m, cfg⟩ := hd
      simp only [geminiAttempts] at hr
      split at hr
      · simp at hr
        subst hr
        rfl
      · split at hr
        · simp only [List.mem_cons] at hr
          rcases hr with hr | hr
          · subst hr
            rfl
          · exact ih _ _ _ hr
        · simp at hr
          subst hr
          rfl

theorem geminiAttempts_ne_nil (env : GemEnv) (prompt mime : String)
    (hd : String × GenerateVideosConfig) (tl : List (String × GenerateVideosConfig))
    (idx : Nat) (last : Option PyExn) :
    (geminiAttempts env prompt mime (hd :: tl) idx last).2 ≠ [] := by
  obtain ⟨m, cfg⟩ := hd
  simp only [geminiAttempts]
  split
  · simp
  · split <;> simp

theorem klingDlLoop_ok_wf (env : KlingEnv) :
    ∀ fuel i last r n, klingDlLoop env i fuel last = (.ok r, n) →
      r.video.isSome = r.success := by
  intro fuel
  induction fuel with
  | zero =>
      intro i last r n h
      simp only [klingDlLoop] at h
      obtain ⟨h1, -⟩ := Prod.mk.injEq .. ▸ h
      cases h1
      rfl
  | succ m ih =>
      intro i last r n h
      simp only [klingDlLoop] at h
      split at h
      · simp at h
      · split at h
        · obtain ⟨h1, -⟩ := Prod.mk.injEq .. ▸ h
          cases h1
          rfl
        · exact ih _ _ _ _ h

theorem klingPollLoop_failed_wf (env : KlingEnv) :
    ∀ fuel count r n, klingPollLoop env count fuel = (.failed r, n) →
      r.video.isSome = r.success := by
  intro fuel
  induction fuel with
  | zero =>
      intro count r n h
      simp only [klingPollLoop] at h
      obtain ⟨h1, -⟩ := Prod.mk.injEq .. ▸ h
      cases h1
  | succ m ih =>
      intro count r n h
      simp only [klingPollLoop] at h
      split at h
      · simp at h
      · split at h
        · exact ih _ _ _ h
        · split at h
          · simp at h
          · split at h
            · simp at h
            · split at h
              · obtain ⟨h1, -⟩ := Prod.mk.injEq .. ▸ h
                cases h1
                rfl
              · exact ih _ _ _ h

theorem klingBody_ok_wf (a : KlingArgs) (env : KlingEnv) (r : GenResult) (t : KlingTrace)
    (h : klingBody a env = (.ok r, t)) : r.video.isSome = r.success := by
  simp only [klingBody] at h
  split at h
  · obtain ⟨h1, -⟩ := Prod.mk.injEq .. ▸ h
    cases h1
    rfl
  · split at h
    · simp at h
    · split at h
      · obtain ⟨h1, -⟩ := Prod.mk.injEq .. ▸ h
        cases h1
        rfl
      · split at h
        · simp at h
        · split at h
          · obtain ⟨h1, -⟩ := Prod.mk.injEq .. ▸ h
            cases h1
            rfl
          · split at h
            · obtain ⟨h1, -⟩ := Prod.mk.injEq .. ▸ h
              cases h1
              rfl
            · split at h
              · simp at h
              · rename_i hpoll
                obtain ⟨h1, -⟩ := Prod.mk.injEq .. ▸ h
                cases h1
                exact klingPollLoop_failed_wf env 60 0 _ _ hpoll
              · obtain ⟨h1, -⟩ := Prod.mk.injEq .. ▸ h
                cases h1
                rfl
              · split at h
                · obtain ⟨h1, -⟩ := Prod.mk.injEq .. ▸ h
                  cases h1
                  rfl
                · split at h
                  · obtain ⟨h1, -⟩ := Prod.mk.injEq .. ▸ h
                    cases h1
                    rfl
                  · obtain ⟨h1, -⟩ := Prod.mk.injEq .. ▸ h
                    exact klingDlLoop_ok_wf env 3 0 none r (klingDlLoop env 0 3 none).2
                      (by rw [← h1])

theorem geminiBody_ok_wf (a : GemArgs) (env : GemEnv) (r : GenResult) (t : GemTrace)
    (h : geminiBody a env = (.ok r, t)) : r.video.isSome = r.success := by
  simp only [geminiBody] at h
  repeat' split at h
  all_goals
    first
      | (obtain ⟨h1, -⟩ := Prod.mk.injEq .. ▸ h; cases h1; rfl)
      | simp at h

/-- Claim C1: for every input and every environment behavior, both backend
clients resolve to the facade triple rather than raising: the result of
`KlingService.generate_video` and `GeminiService.generate_video` is a total
triple in which the video bytes are present exactly when `success` is true,
so every failure path yields `(False, message, None)` and every success path
`(True, message, bytes)`. -/
theorem facade_result_contract (a : KlingArgs) (env : KlingEnv)
    (g : GemArgs) (genv : GemEnv) :
    ((KlingService.generate_video a env).1.video.isSome =
      (KlingService.generate_video a env).1.success) ∧
    ((GeminiService.generate_video g genv).1.video.isSome =
      (GeminiService.generate_video g genv).1.success) := by
  constructor
  · rcases hb : klingBody a env with ⟨rb, tb⟩
    cases rb with
    | ok res =>
        have hw := klingBody_ok_wf a env res tb hb
        simp only [KlingService.generate_video, hb]
        exact hw
    | error e =>
        simp only [KlingService.generate_video, hb]
        rfl
  · rcases hb : geminiBody g genv with ⟨rb, tb⟩
    cases rb with
    | ok res =>
        have hw := geminiBody_ok_wf g genv res tb hb
        simp only [GeminiService.generate_video, hb]
        exact hw
    | error e =>
        cases e with
        | timeout =>
            simp only [GeminiService.generate_video, hb]
            rfl
        | exn ex =>
            simp only [GeminiService.generate_video, hb]
            rfl

theorem geminiBody_submits_sub (g : GemArgs) (genv : GemEnv) :
    (geminiBody g genv).2.submits = [] ∨
      (geminiBody g genv).2.submits =
        (geminiAttempts genv
          (geminiPromptEnhanced g.mode_type (geminiEffectivePrompt g.mode_type g.prompt))
          (GeminiService.guess_mime_type g.image_bytes)
          (geminiAttemptList g) 0 none).2 := by
  simp only [geminiBody, geminiEffectivePrompt, geminiAttemptList, geminiSelectedModel,
    geminiFallbackModel]
  repeat' split
  all_goals simp_all

theorem gemini_submits_prompt (g : GemArgs) (genv : GemEnv) :
    ∀ r ∈ (GeminiService.generate_video g genv).2.submits,
      r.prompt = geminiPromptEnhanced g.mode_type
        (geminiEffectivePrompt g.mode_type g.prompt) := by
  intro r hr
  rw [gemini_trace_eq] at hr
  rcases geminiBody_submits_sub g genv with h | h
  · rw [h] at hr
    simp at hr
  · rw [h] at hr
    exact geminiAttempts_prompt genv _ _ _ 0 none r hr

theorem gemini_empty_speech (g : GemArgs) (genv : GemEnv) (hm : g.mode_type = "speech")
    (hp : pyStrip g.prompt = "") :
    (GeminiService.generate_video g genv).1.success = false ∧
      (GeminiService.generate_video g genv).2 = ⟨[], 0, 0⟩ := by
  rcases hv : GeminiService.validate_image g.image_bytes
      (GeminiService.guess_mime_type g.image_bytes) with ⟨vb, vmsg⟩
  cases vb
  · simp [GeminiService.generate_video, geminiBody, hv]
  · simp [GeminiService.generate_video, geminiBody, hv, hm, hp]

theorem geminiBody_prompt_congr (g : GemArgs) (genv : GemEnv) (p : String)
    (h : pyStrip g.prompt = pyStrip p) :
    geminiBody g genv = geminiBody { g with prompt := p } genv := by
  simp only [geminiBody, h]

/-- Claim C2: with `mode_type = "dance"` and an empty prompt, Provider A
(`KlingService.generate_video`) returns the validation failure triple without
any network call, while Provider B (`GeminiService.generate_video`)
substitutes the fixed default descriptor `happy dance` and proceeds to
submission. -/
theorem dance_empty_prompt_asymmetry (a : KlingArgs) (env : KlingEnv)
    (g : GemArgs) (genv : GemEnv)
    (ham : a.mode_type = "dance") (hap : pyStrip a.prompt = "")
    (hgm : g.mode_type = "dance") (hgp : pyStrip g.prompt = "")
    (hgv : (GeminiService.validate_image g.image_bytes
      (GeminiService.guess_mime_type g.image_bytes)).1 = true) :
    KlingService.generate_video a env =
      (⟨false, "프롬프트가 비어 있습니다.", none⟩, ⟨[], 0, 0⟩) ∧
    (GeminiService.generate_video g genv).2.submits ≠ [] ∧
    ∀ r ∈ (GeminiService.generate_video g genv).2.submits,
      r.prompt = geminiPromptEnhanced "dance" "happy dance" := by
  refine ⟨kling_empty_prompt a env hap, ?_, ?_⟩
  · rw [gemini_trace_eq]
    rcases hval : GeminiService.validate_image g.image_bytes
        (GeminiService.guess_mime_type g.image_bytes) with ⟨vb, vmsg⟩
    cases vb
    · rw [hval] at hgv
      simp at hgv
    · have hne : ¬ ("dance" = "speech") := by decide
      simp only [geminiBody, hval, hgm, hgp, hne, eq_self_iff_true, true_and, and_false,
        if_false, iff_false, not_false_eq_true, if_neg]
      split
      all_goals
        rename_i heq
        have h2 := congrArg Prod.snd heq
        dsimp only at h2
        repeat' split
        all_goals
          dsimp only
          rw [← h2]
          exact geminiAttempts_ne_nil genv _ _ _ _ 0 none
  · intro r hr
    rw [gemini_submits_prompt g genv r hr, hgm]
    simp [geminiEffectivePrompt, hgp]

set_option maxRecDepth 8192 in
/-- Witness for claim C2 at a concrete empty-prompt dance call. -/
theorem dance_empty_prompt_asymmetry_witness :
    KlingService.generate_video ⟨[], "", "kling-v2-6", 5, "16:9", "720p", "dance"⟩
        envKlingDown =
      (⟨false, "프롬프트가 비어 있습니다.", none⟩, ⟨[], 0, 0⟩) ∧
    (GeminiService.generate_video
        ⟨img150, "", "veo-3.1-fast-generate-preview", 4, "16:9", "720p", "dance"⟩
        envGemBadAll).2.submits ≠ [] ∧
    ∀ r ∈ (GeminiService.generate_video
        ⟨img150, "", "veo-3.1-fast-generate-preview", 4, "16:9", "720p", "dance"⟩
        envGemBadAll).2.submits,
      r.prompt = geminiPromptEnhanced "dance" "happy dance" :=
  dance_empty_prompt_asymmetry _ _ _ _ rfl (by decide) rfl (by decide) (by decide)

/-- Claim C7: with `mode_type = "speech"` and an empty prompt, both backend
clients return `success = false` and issue no network request at all. -/
theorem empty_speech_prompt_no_network (a : KlingArgs) (env : KlingEnv)
    (g : GemArgs) (genv : GemEnv)
    (ham : a.mode_type = "speech") (hap : pyStrip a.prompt = "")
    (hgm : g.mode_type = "speech") (hgp : pyStrip g.prompt = "") :
    ((KlingService.generate_video a env).1.success = false ∧
      (KlingService.generate_video a env).2 = ⟨[], 0, 0⟩) ∧
    ((GeminiService.generate_video g genv).1.success = false ∧
      (GeminiService.generate_video g genv).2 = ⟨[], 0, 0⟩) := by
  refine ⟨⟨?_, ?_⟩, gemini_empty_speech g genv hgm hgp⟩
  · rw [kling_empty_prompt a env hap]
  · rw [kling_empty_prompt a env hap]

set_option maxRecDepth 8192 in
/-- Witness for claim C7 at a concrete empty-prompt speech call. -/
theorem empty_speech_prompt_no_network_witness :
    ((KlingService.generate_video ⟨[], "   ", "kling-v2-6", 5, "16:9", "720p", "speech"⟩
        envKlingDown).1.success = false ∧
      (KlingService.generate_video ⟨[], "   ", "kling-v2-6", 5, "16:9", "720p", "speech"⟩
        envKlingDown).2 = ⟨[], 0, 0⟩) ∧
    ((GeminiService.generate_video
        ⟨img150, "", "veo-3.1-fast-generate-preview", 4, "16:9", "720p", "speech"⟩
        envGemOkNow).1.success = false ∧
      (GeminiService.generate_video
        ⟨img150, "", "veo-3.1-fast-generate-preview", 4, "16:9", "720p", "speech"⟩
        envGemOkNow).2 = ⟨[], 0, 0⟩) :=
  empty_speech_prompt_no_network _ _ _ _ rfl (by decide) rfl (by decide)

/-- Claim C9: the prompt-construction step of each backend client is a
deterministic, pure string transform of `(mode, text)`: every prompt actually
submitted equals a fixed function of the mode and the stripped user text, so
building it twice from the same inputs yields byte-identical output. -/
theorem prompt_construction_pure (a : KlingArgs) (env : KlingEnv)
    (g : GemArgs) (genv : GemEnv) :
    (∀ r ∈ (KlingService.generate_video a env).2.submits,
      r.prompt = klingPromptEnhanced a.mode_type (pyStrip a.prompt)) ∧
    (∀ r ∈ (GeminiService.generate_video g genv).2.submits,
      r.prompt = geminiPromptEnhanced g.mode_type
        (geminiEffectivePrompt g.mode_type g.prompt)) := by
  constructor
  · intro r hr
    rw [kling_trace_eq] at hr
    rcases klingBody_submits a env with h | h
    · rw [h] at hr
      simp at hr
    · rw [h] at hr
      simp only [List.mem_singleton] at hr
      subst hr
      rfl
  · exact gemini_submits_prompt g genv

set_option maxRecDepth 8192 in
/-- Witness for claim C9: the concrete submitted prompts of one Kling run and
one Gemini run equal the pure transforms of their inputs. -/
theorem prompt_construction_pure_witness :
    (klingRequestBody ⟨[], "hello", "kling-v2-6", 5, "16:9", "720p", "speech"⟩).prompt =
      klingPromptEnhanced "speech" "hello" ∧
    (GemSubmitRec.mk "veo-3.1-fast-generate-preview"
        (geminiPromptEnhanced "speech" "hi") "image/jpeg"
        (GeminiService.build_config (some 4) (some "16:9") (some "720p") false)).prompt =
      geminiPromptEnhanced "speech" (geminiEffectivePrompt "speech" "hi") :=
  ⟨(prompt_construction_pure ⟨[], "hello", "kling-v2-6", 5, "16:9", "720p", "speech"⟩
      envKlingDown
      ⟨img150, "hi", "veo-3.1-fast-generate-preview", 4, "16:9", "720p", "speech"⟩
      envGemBadAll).1 _ (by decide),
   (prompt_construction_pure ⟨[], "hello", "kling-v2-6", 5, "16:9", "720p", "speech"⟩
      envKlingDown
      ⟨img150, "hi", "veo-3.1-fast-generate-preview", 4, "16:9", "720p", "speech"⟩
      envGemBadAll).2 _ (by decide)⟩

/-- Claim C10: both clients strip the prompt before the emptiness check, so a
whitespace-only prompt is treated exactly like an empty one: each call equals
the same call with the empty prompt; Kling fails validation for every mode;
Gemini returns failure in speech mode and substitutes the default descriptor
in dance mode. -/
theorem whitespace_prompt_like_empty (a : KlingArgs) (env : KlingEnv)
    (g : GemArgs) (genv : GemEnv)
    (hap : pyStrip a.prompt = "") (hgp : pyStrip g.prompt = "") :
    KlingService.generate_video a env =
      KlingService.generate_video { a with prompt := "" } env ∧
    GeminiService.generate_video g genv =
      GeminiService.generate_video { g with prompt := "" } genv ∧
    KlingService.generate_video a env =
      (⟨false, "프롬프트가 비어 있습니다.", none⟩, ⟨[], 0, 0⟩) ∧
    (g.mode_type = "speech" → (GeminiService.generate_video g genv).1.success = false) ∧
    (g.mode_type = "dance" → ∀ r ∈ (GeminiService.generate_video g genv).2.submits,
      r.prompt = geminiPromptEnhanced "dance" "happy dance") := by
  refine ⟨?_, ?_, kling_empty_prompt a env hap, ?_, ?_⟩
  · rw [kling_empty_prompt a env hap,
      kling_empty_prompt { a with prompt := "" } env (by rfl)]
  · have hb := geminiBody_prompt_congr g genv "" (by rw [hgp]; rfl)
    simp only [GeminiService.generate_video, hb]
  · intro hm
    exact (gemini_empty_speech g genv hm hgp).1
  · intro hm r hr
    rw [gemini_submits_prompt g genv r hr, hm]
    simp [geminiEffectivePrompt, hgp]

set_option maxRecDepth 8192 in
/-- Witness for claim C10 at a three-space prompt. -/
theorem whitespace_prompt_like_empty_witness :
    KlingService.generate_video ⟨[], "   ", "kling-v2-6", 5, "16:9", "720p", "dance"⟩
        envKlingDown =
      KlingService.generate_video
        ⟨[], "", "kling-v2-6", 5, "16:9", "720p", "dance"⟩ envKlingDown ∧
    GeminiService.generate_video
        ⟨img150, "   ", "veo-3.1-fast-generate-preview", 4, "16:9", "720p", "dance"⟩
        envGemBadAll =
      GeminiService.generate_video
        ⟨img150, "", "veo-3.1-fast-generate-preview", 4, "16:9", "720p", "dance"⟩
        envGemBadAll ∧
    KlingService.generate_video ⟨[], "   ", "kling-v2-6", 5, "16:9", "720p", "dance"⟩
        envKlingDown =
      (⟨false, "프롬프트가 비어 있습니다.", none⟩, ⟨[], 0, 0⟩) ∧
    ("dance" = "speech" →
      (GeminiService.generate_video
        ⟨img150, "   ", "veo-3.1-fast-generate-preview", 4, "16:9", "720p", "dance"⟩
        envGemBadAll).1.success = false) ∧
    ("dance" = "dance" →
      ∀ r ∈ (GeminiService.generate_video
        ⟨img150, "   ", "veo-3.1-fast-generate-preview", 4, "16:9", "720p", "dance"⟩
        envGemBadAll).2.submits,
        r.prompt = geminiPromptEnhanced "dance" "happy dance") :=
  whitespace_prompt_like_empty _ _ _ _ (by decide) (by decide)

set_option maxRecDepth 8192 in
/-- Counterexample to claim C3: the code does not clamp to the nearest allowed
value: for `duration = 9` the nearest member of {5, 10} is 10, yet the request
body Provider A builds carries duration `"5"`. -/
theorem duration_not_nearest_counterexample :
    nearestAllowedDuration 9 = 10 ∧
    (KlingService.generate_video ⟨[], "hi", "kling-v2-6", 9, "16:9", "720p", "speech"⟩
        envKlingDown).2.submits.map (fun r => r.duration) = ["5"] := by
  exact ⟨by decide, by decide⟩

/-- Claim C3 (amended): for every integer duration not in the allowed set
{5, 10}, Provider A replaces it by the first allowed value 5 (regardless of
nearness) before building the request body; in particular `duration = 7`
becomes 5. -/
theorem duration_clamped_to_first_allowed (a : KlingArgs) (env : KlingEnv)
    (hd : a.duration ∉ KlingService.ALLOWED_DURATIONS) :
    ∀ r ∈ (KlingService.generate_video a env).2.submits, r.duration = "5" := by
  intro r hr
  rw [kling_trace_eq] at hr
  rcases klingBody_submits a env with h | h
  · rw [h] at hr
    simp at hr
  · rw [h] at hr
    simp only [List.mem_singleton] at hr
    subst hr
    simp only [klingRequestBody]
    rw [if_neg hd]
    rfl

set_option maxRecDepth 8192 in
/-- Witness for the amended claim C3 at `duration = 7`. -/
theorem duration_clamped_to_first_allowed_witness :
    (klingRequestBody ⟨[], "hi", "kling-v2-6", 7, "16:9", "720p", "speech"⟩).duration = "5" :=
  duration_clamped_to_first_allowed ⟨[], "hi", "kling-v2-6", 7, "16:9", "720p", "speech"⟩
    envKlingDown (by decide) _ (by decide)

theorem guess_mime_supported (b : Bytes) :
    GeminiService.guess_mime_type b ∈ GeminiService.SUPPORTED_IMAGE_TYPES := by
  simp only [GeminiService.guess_mime_type, GeminiService.SUPPORTED_IMAGE_TYPES]
  split
  · simp
  · split <;> simp

theorem validate_image_size_fail (data : Bytes) (t : String)
    (ht : t ∈ GeminiService.SUPPORTED_IMAGE_TYPES)
    (h : GeminiService.MAX_FILE_SIZE < data.length ∨ data.length < 100) :
    GeminiService.validate_image data t =
      (false, if GeminiService.MAX_FILE_SIZE < data.length then "File size exceeds 10MB"
        else "Invalid image file") := by
  unfold GeminiService.validate_image
  by_cases h1 : GeminiService.MAX_FILE_SIZE < data.length
  · rw [if_pos h1, if_pos h1]
  · rcases h with h | h
    · exact absurd h h1
    · rw [if_neg h1, if_neg h1, if_neg (by simp [ht]), if_pos h]

set_option maxRecDepth 8192 in
/-- Counterexample to claim C4: a 150-byte all-zero payload, whose
file-signature bytes identify none of JPEG, PNG or WEBP, is not rejected:
Provider B sniffs it as JPEG, submits it, and the call succeeds outright. -/
theorem unrecognized_format_not_rejected_counterexample :
    sigRecognizedSpec img150 = false ∧
    GeminiService.guess_mime_type img150 = "image/jpeg" ∧
    (GeminiService.generate_video
        ⟨img150, "hi", "veo-3.1-fast-generate-preview", 4, "16:9", "720p", "speech"⟩
        envGemOkNow).1.success = true ∧
    (GeminiService.generate_video
        ⟨img150, "hi", "veo-3.1-fast-generate-preview", 4, "16:9", "720p", "speech"⟩
        envGemOkNow).2.submits ≠ [] := by
  exact ⟨by decide, by decide, by decide, by decide⟩

/-- Claim C4 (amended): Provider B rejects an image payload before submitting
any job exactly for the size bounds (over the 10 MB ceiling or under 100
bytes); the format sniff never rejects, because unrecognized signatures are
reported as JPEG and every sniffed type is in the supported list. -/
theorem image_validation_size_only (g : GemArgs) (genv : GemEnv)
    (hsize : GeminiService.MAX_FILE_SIZE < g.image_bytes.length ∨
      g.image_bytes.length < 100) :
    GeminiService.generate_video g genv =
      (⟨false, "Image validation failed: " ++
        (if GeminiService.MAX_FILE_SIZE < g.image_bytes.length then "File size exceeds 10MB"
         else "Invalid image file"), none⟩, ⟨[], 0, 0⟩) ∧
    GeminiService.guess_mime_type g.image_bytes ∈ GeminiService.SUPPORTED_IMAGE_TYPES := by
  constructor
  · have hv := validate_image_size_fail g.image_bytes _
      (guess_mime_supported g.image_bytes) hsize
    simp [GeminiService.generate_video, geminiBody, hv]
  · exact guess_mime_supported g.image_bytes

/-- Witness for the amended claim C4 at the empty payload. -/
theorem image_validation_size_only_witness :
    GeminiService.generate_video
        ⟨[], "hi", "veo-3.1-fast-generate-preview", 4, "16:9", "720p", "speech"⟩
        envGemOkNow =
      (⟨false, "Image validation failed: " ++
        (if GeminiService.MAX_FILE_SIZE < ([] : Bytes).length then "File size exceeds 10MB"
         else "Invalid image file"), none⟩, ⟨[], 0, 0⟩) ∧
    GeminiService.guess_mime_type ([] : Bytes) ∈ GeminiService.SUPPORTED_IMAGE_TYPES :=
  image_validation_size_only _ _ (by decide)

theorem klingPollLoop_timeout (env : KlingEnv) :
    ∀ fuel count,
      (∀ i, count ≤ i → i < count + fuel → klingPollNonTerminal (env.poll i) = true) →
      klingPollLoop env count fuel = (.timeout, count + fuel) := by
  intro fuel
  induction fuel with
  | zero =>
      intro count hnt
      simp [klingPollLoop]
  | succ m ih =>
      intro count hnt
      have h0 := hnt count (le_refl _) (by omega)
      rcases hc : env.poll count with e | r
      · rw [hc] at h0
        simp [klingPollNonTerminal] at h0
      · rw [hc] at h0
        simp only [klingPollLoop, hc]
        by_cases hsc : r.status_code = 200
        · rcases hjson : r.json with e | jj
          · simp [klingPollNonTerminal, hsc, hjson] at h0
          · simp [klingPollNonTerminal, hsc, hjson] at h0
            rw [if_neg (by simp [hsc])]
            dsimp only
            rw [if_neg h0.1, if_neg h0.2]
            rw [ih (count + 1) (fun i h1 h2 => hnt i (by omega) (by omega))]
            congr 1
            omega
        · rw [if_pos hsc]
          rw [ih (count + 1) (fun i h1 h2 => hnt i (by omega) (by omega))]
          congr 1
          omega

/-- Claim C5: when the submission succeeds but no poll within the fixed budget
reports a terminal status (`succeed` or `failed`), Provider A performs exactly
60 poll requests and then returns the timeout failure triple without any
download. -/
theorem kling_poll_timeout_after_60 (a : KlingArgs) (env : KlingEnv)
    (s : KlingSubmitResp) (j : KlingSubmitJson)
    (hp : pyStrip a.prompt ≠ "")
    (hs : env.submit = .ok s) (hsc : s.status_code = 200) (hj : s.json = .ok j)
    (hcode : j.code = some 0) (htid : falsyOptStr j.task_id = false)
    (hpoll : ∀ i < 60, klingPollNonTerminal (env.poll i) = true) :
    (KlingService.generate_video a env).1 = ⟨false, "영상 생성 시간 초과 (10분)", none⟩ ∧
    (KlingService.generate_video a env).2.polls = 60 ∧
    (KlingService.generate_video a env).2.downloads = 0 := by
  have hloop : klingPollLoop env 0 60 = (.timeout, 60) := by
    have h := klingPollLoop_timeout env 60 0 (fun i h1 h2 => hpoll i (by omega))
    simpa using h
  refine ⟨?_, ?_, ?_⟩ <;>
    simp [KlingService.generate_video, klingBody, hp, hs, hsc, hj, hcode, htid, hloop]

set_option maxRecDepth 8192 in
/-- Witness for claim C5: an environment whose polls always answer
`processing` yields the timeout triple after exactly 60 polls. -/
theorem kling_poll_timeout_after_60_witness :
    (KlingService.generate_video ⟨[], "hi", "kling-v2-6", 5, "16:9", "720p", "speech"⟩
        envKlingProcessing).1 = ⟨false, "영상 생성 시간 초과 (10분)", none⟩ ∧
    (KlingService.generate_video ⟨[], "hi", "kling-v2-6", 5, "16:9", "720p", "speech"⟩
        envKlingProcessing).2.polls = 60 ∧
    (KlingService.generate_video ⟨[], "hi", "kling-v2-6", 5, "16:9", "720p", "speech"⟩
        envKlingProcessing).2.downloads = 0 :=
  kling_poll_timeout_after_60 _ _ ⟨200, "", .ok ⟨some 0, none, some "task-1"⟩⟩
    ⟨some 0, none, some "task-1"⟩ (by decide) rfl rfl rfl rfl (by decide) (by decide)

/-- Claim C8: if the submission succeeds, the first poll reports `succeed`
with a single video entry carrying a nonempty URL, and the download answers
200 with a body above the 10240-byte threshold, Provider A returns
`(True, message, bytes)` after exactly one poll and exactly one download. -/
theorem kling_first_poll_success (a : KlingArgs) (env : KlingEnv)
    (s : KlingSubmitResp) (sj : KlingSubmitJson) (pj : KlingPollJson)
    (u : String) (bs : Bytes)
    (hp : pyStrip a.prompt ≠ "")
    (hs : env.submit = .ok s) (hsc : s.status_code = 200) (hj : s.json = .ok sj)
    (hcode : sj.code = some 0) (htid : falsyOptStr sj.task_id = false)
    (hpoll : env.poll 0 = .ok ⟨200, .ok pj⟩) (hst : pj.task_status = "succeed")
    (hvid : pj.videos = [⟨some u⟩]) (hu : u ≠ "")
    (hdl : env.download 0 = .ok ⟨200, bs⟩) (hlen : 10240 < bs.length) :
    (KlingService.generate_video a env).1 = ⟨true, "성공", some bs⟩ ∧
    (KlingService.generate_video a env).2.polls = 1 ∧
    (KlingService.generate_video a env).2.downloads = 1 := by
  have hloop : klingPollLoop env 0 60 = (.succeeded pj, 1) := by
    simp [klingPollLoop, hpoll, hst]
  have hdll : klingDlLoop env 0 3 none = (.ok ⟨true, "성공", some bs⟩, 1) := by
    simp [klingDlLoop, hdl, hlen]
  have hfu : falsyOptStr (some u) = false := by simp [falsyOptStr, hu]
  refine ⟨?_, ?_, ?_⟩ <;>
    simp [KlingService.generate_video, klingBody, hp, hs, hsc, hj, hcode, htid,
      hloop, hdll, hvid, hfu]

set_option maxRecDepth 8192 in
/-- Witness for claim C8: a first-poll `succeed` with a 10241-byte download. -/
theorem kling_first_poll_success_witness :
    (KlingService.generate_video ⟨[], "hi", "kling-v2-6", 5, "16:9", "720p", "speech"⟩
        envKlingQuick).1 = ⟨true, "성공", some (List.replicate 10241 7)⟩ ∧
    (KlingService.generate_video ⟨[], "hi", "kling-v2-6", 5, "16:9", "720p", "speech"⟩
        envKlingQuick).2.polls = 1 ∧
    (KlingService.generate_video ⟨[], "hi", "kling-v2-6", 5, "16:9", "720p", "speech"⟩
        envKlingQuick).2.downloads = 1 :=
  kling_first_poll_success _ _ ⟨200, "", .ok ⟨some 0, none, some "task-1"⟩⟩
    ⟨some 0, none, some "task-1"⟩
    ⟨"succeed", none, [⟨some "https://v.example/video.mp4"⟩]⟩
    "https://v.example/video.mp4" (List.replicate 10241 7)
    (by decide) rfl rfl rfl rfl (by decide) rfl rfl rfl (by decide) rfl
    (by simp only [List.length_replicate]; omega)

/-- Claim C6: Provider B attempts submission at most three times with
decreasing configuration richness — `(selected model, full config)`,
`(selected model, minimal config)`, `(fallback model, minimal config)`.  A
bad-request-class error advances to the next attempt, so when the first two
attempts raise bad-request errors and the third succeeds, all three listed
attempts are issued in order and the call proceeds (to success) using the
fallback model; any other submission error aborts immediately after the
attempt that raised it. -/
theorem gemini_attempt_fallback :
    (∀ (g : GemArgs) (genv : GemEnv) (e0 e1 : PyExn) (op : VeoOperation)
      (resp : VeoResponse) (bs : Bytes),
      (GeminiService.validate_image g.image_bytes
        (GeminiService.guess_mime_type g.image_bytes)).1 = true →
      pyStrip g.prompt ≠ "" →
      genv.submit 0 = .error e0 → GeminiService.is_bad_request e0 = true →
      genv.submit 1 = .error e1 → GeminiService.is_bad_request e1 = true →
      genv.submit 2 = .ok op →
      op.done = true → op.err = none → op.response = some resp →
      falsyOptList resp.generated_videos = false →
      genv.download = .ok bs → bs ≠ [] →
      (GeminiService.generate_video g genv).1 =
        ⟨true, "Video generated successfully", some bs⟩ ∧
      (GeminiService.generate_video g genv).2.submits.map
          (fun r => (r.model, r.config)) =
        [(geminiSelectedModel g,
           GeminiService.build_config (some g.duration) (some g.aspect)
             (some g.resolution) false),
         (geminiSelectedModel g, GeminiService.build_config none (some g.aspect) none true),
         (geminiFallbackModel g,
           GeminiService.build_config none (some g.aspect) none true)]) ∧
    (∀ (g : GemArgs) (genv : GemEnv) (e0 : PyExn),
      (GeminiService.validate_image g.image_bytes
        (GeminiService.guess_mime_type g.image_bytes)).1 = true →
      pyStrip g.prompt ≠ "" →
      genv.submit 0 = .error e0 → GeminiService.is_bad_request e0 = false →
      (GeminiService.generate_video g genv).1 =
        ⟨false, "Error during video generation: " ++
          GeminiService.extract_error_detail e0, none⟩ ∧
      (GeminiService.generate_video g genv).2.submits.length = 1) := by
  constructor
  · intro g genv e0 e1 op resp bs hval hp h0 hb0 h1 hb1 h2 hdone herr hresp hvids hdlx hbs
    rcases hvv : GeminiService.validate_image g.image_bytes
        (GeminiService.guess_mime_type g.image_bytes) with ⟨vb, vmsg⟩
    cases vb
    · rw [hvv] at hval
      simp at hval
    · have hpoll : GeminiService.poll_operation genv op 0 32 = (.ok op, 0) := by
        simp [GeminiService.poll_operation, hdone]
      have hbs2 : bs.isEmpty = false := by
        simp [List.isEmpty_iff, hbs]
      have herr2 : falsyOptStr op.err = true := by
        simp [herr, falsyOptStr]
      constructor
      · simp [GeminiService.generate_video, geminiBody, hvv, hp, geminiAttempts,
          geminiSelectedModel, geminiFallbackModel, h0, hb0, h1, hb1, h2, hpoll,
          herr2, hresp, hvids, hdlx, hbs2]
      · simp [GeminiService.generate_video, geminiBody, hvv, hp, geminiAttempts,
          geminiSelectedModel, geminiFallbackModel, h0, hb0, h1, hb1, h2, hpoll,
          herr2, hresp, hvids, hdlx, hbs2]
  · intro g genv e0 hval hp h0 hb0
    rcases hvv : GeminiService.validate_image g.image_bytes
        (GeminiService.guess_mime_type g.image_bytes) with ⟨vb, vmsg⟩
    cases vb
    · rw [hvv] at hval
      simp at hval
    · constructor
      · simp [GeminiService.generate_video, geminiBody, hvv, hp, geminiAttempts, h0, hb0]
      · simp [GeminiService.generate_video, geminiBody, hvv, hp, geminiAttempts, h0, hb0]

set_option maxRecDepth 8192 in
/-- Witness for claim C6: two bad-request rejections then success on the
fallback attempt, and an immediate abort on a non-bad-request error. -/
theorem gemini_attempt_fallback_witness :
    ((GeminiService.generate_video
        ⟨img150, "hop", "veo-3.1-generate-preview", 4, "16:9", "720p", "dance"⟩
        envGemThird).1 =
      ⟨true, "Video generated successfully", some [9]⟩ ∧
     (GeminiService.generate_video
        ⟨img150, "hop", "veo-3.1-generate-preview", 4, "16:9", "720p", "dance"⟩
        envGemThird).2.submits.map (fun r => (r.model, r.config)) =
      [(geminiSelectedModel
          ⟨img150, "hop", "veo-3.1-generate-preview", 4, "16:9", "720p", "dance"⟩,
         GeminiService.build_config (some 4) (some "16:9") (some "720p") false),
       (geminiSelectedModel
          ⟨img150, "hop", "veo-3.1-generate-preview", 4, "16:9", "720p", "dance"⟩,
         GeminiService.build_config none (some "16:9") none true),
       (geminiFallbackModel
          ⟨img150, "hop", "veo-3.1-generate-preview", 4, "16:9", "720p", "dance"⟩,
         GeminiService.build_config none (some "16:9") none true)]) ∧
    ((GeminiService.generate_video
        ⟨img150, "hop", "veo-3.1-generate-preview", 4, "16:9", "720p", "dance"⟩
        envGemAbort).1 =
      ⟨false, "Error during video generation: " ++
        GeminiService.extract_error_detail serverErrFixture, none⟩ ∧
     (GeminiService.generate_video
        ⟨img150, "hop", "veo-3.1-generate-preview", 4, "16:9", "720p", "dance"⟩
        envGemAbort).2.submits.length = 1) :=
  ⟨gemini_attempt_fallback.1 _ envGemThird badReqFixture badReqFixture opDoneFixture
      ⟨some ["vid-ref"]⟩ [9] (by decide) (by decide) rfl (by decide) rfl (by decide) rfl
      rfl rfl rfl (by decide) rfl (by decide),
   gemini_attempt_fallback.2 _ envGemAbort serverErrFixture (by decide) (by decide) rfl
      (by decide)⟩
